import Mathlib

/-!
Verification of the arc-point ("boomerang curve") solver of
Collinear-Point-Calc, `src/headerFiLES/functions.hpp`, embedded over ℝ.

The solver consists of `calculateColinearPoint` (pose + lookahead + radius)
and the wrapper `calculateColinearPointWithCurvature` (curvature instead of
radius).  Doubles are modelled as real numbers; `sin`, `cos` are the real
trigonometric functions.
-/

open Real

namespace CollinearPointCalc

/-- `struct Point { double x; double y; };` -/
structure Point where
  x : ℝ
  y : ℝ


/-- `const double EPSILON = 1e-9;` -/
def EPSILON : ℝ := 1e-9

/-- `const double MAX_DLEAD = 1e6;` -/
def MAX_DLEAD : ℝ := 1e6

/-- `const double MIN_DLEAD = 1e-6;` -/
def MIN_DLEAD : ℝ := 1e-6

/-- `const double DEFAULT_CURVATURE_RADIUS = 1.0;` -/
def DEFAULT_CURVATURE_RADIUS : ℝ := 1.0

/-- The clamping of `dlead` in `calculateColinearPoint` (functions.hpp
lines 117-122): `if (dlead > MAX_DLEAD) dlead = MAX_DLEAD; else if
(dlead < -MAX_DLEAD) dlead = -MAX_DLEAD;`. -/
noncomputable def clampDlead (dlead : ℝ) : ℝ :=
  if dlead > MAX_DLEAD then MAX_DLEAD
  else if dlead < -MAX_DLEAD then -MAX_DLEAD
  else dlead

/-- The radius normalisation in `calculateColinearPoint` (functions.hpp
lines 124-128): `if (std::abs(radius) < EPSILON) radius =
DEFAULT_CURVATURE_RADIUS; radius = std::abs(radius);`. -/
noncomputable def effectiveRadius (radius : ℝ) : ℝ :=
  |if |radius| < EPSILON then DEFAULT_CURVATURE_RADIUS else radius|

/-- The world-frame x coordinate computed on the arc path of
`calculateColinearPoint` before the zero-snapping cleanup (functions.hpp
lines 136-178): `phi = dlead / radius; localX = radius * sin(phi);
localY = radius * (1.0 - cos(phi)); result.x = x + localX * cosTheta -
localY * sinTheta;` with `dlead` already clamped and `radius` already
normalised. -/
noncomputable def arcWorldX (x theta dlead radius : ℝ) : ℝ :=
  x + (effectiveRadius radius *
        Real.sin (clampDlead dlead / effectiveRadius radius)) * Real.cos theta -
    (effectiveRadius radius *
        (1 - Real.cos (clampDlead dlead / effectiveRadius radius))) * Real.sin theta

/-- The world-frame y coordinate computed on the arc path of
`calculateColinearPoint` before the zero-snapping cleanup (functions.hpp
lines 136-179): `result.y = y + localX * sinTheta + localY * cosTheta;`. -/
noncomputable def arcWorldY (y theta dlead radius : ℝ) : ℝ :=
  y + (effectiveRadius radius *
        Real.sin (clampDlead dlead / effectiveRadius radius)) * Real.sin theta +
    (effectiveRadius radius *
        (1 - Real.cos (clampDlead dlead / effectiveRadius radius))) * Real.cos theta

/-- The numerical-precision cleanup of `calculateColinearPoint`
(functions.hpp lines 186-191): `if (std::abs(v) < EPSILON) v = 0.0;`. -/
noncomputable def snap (v : ℝ) : ℝ :=
  if |v| < EPSILON then 0.0 else v

/-- `Point calculateColinearPoint(double x, double y, double theta,
double dlead, double radius = DEFAULT_CURVATURE_RADIUS)` (functions.hpp
lines 96-194).  Early identity return for `|dlead| < MIN_DLEAD`
(lines 111-115), otherwise the arc computation followed by the
zero-snapping cleanup. -/
noncomputable def calculateColinearPoint (x y theta dlead : ℝ)
    (radius : ℝ := DEFAULT_CURVATURE_RADIUS) : Point :=
  if |dlead| < MIN_DLEAD then ⟨x, y⟩
  else ⟨snap (arcWorldX x theta dlead radius), snap (arcWorldY y theta dlead radius)⟩

/-- `Point calculateColinearPointWithCurvature(double x, double y,
double theta, double dlead, double curvature)` (functions.hpp
lines 209-235).  Straight-line branch for `|curvature| < EPSILON`
(lines 219-225, no snapping), otherwise `radius = 1.0 /
std::abs(curvature)`, `dlead` negated when `curvature < 0`, and
delegation to `calculateColinearPoint`. -/
noncomputable def calculateColinearPointWithCurvature
    (x y theta dlead curvature : ℝ) : Point :=
  if |curvature| < EPSILON then
    ⟨x + dlead * Real.cos theta, y + dlead * Real.sin theta⟩
  else
    calculateColinearPoint x y theta (if curvature < 0 then -dlead else dlead)
      (1.0 / |curvature|)

/-- The chord length displayed by `curveCalc` (functions.hpp lines
381-383): `dx = targetPoint.x - x; dy = targetPoint.y - y; chordLength =
sqrt(dx * dx + dy * dy);`. -/
noncomputable def chordLength (x y : ℝ) (target : Point) : ℝ :=
  Real.sqrt ((target.x - x) * (target.x - x) + (target.y - y) * (target.y - y))

/-- The arc-point computation as the spec states it (spec.md §4.1 steps
2-7), to be compared with `calculateColinearPoint` from the source:
clamp `dlead` to `[-1e6, 1e6]`, substitute radius `1.0` when
`|radius| < 1e-9` and otherwise use `|radius|`, compute
`phi = dlead / R`, `localX = R * sin(phi)`, `localY = R * (1 - cos(phi))`,
rotate by `theta`, translate by `(x, y)`, and snap coordinates of
magnitude below `1e-9` to `0.0`. -/
noncomputable def specArcPoint (x y theta dlead radius : ℝ) : Point :=
  let R := if |radius| < 1e-9 then 1.0 else |radius|
  let phi := max (-1e6) (min 1e6 dlead) / R
  let localX := R * Real.sin phi
  let localY := R * (1 - Real.cos phi)
  let worldX := x + localX * Real.cos theta - localY * Real.sin theta
  let worldY := y + localX * Real.sin theta + localY * Real.cos theta
  ⟨if |worldX| < 1e-9 then 0.0 else worldX,
   if |worldY| < 1e-9 then 0.0 else worldY⟩

end CollinearPointCalc

namespace CollinearPointCalc

lemma effectiveRadius_eq (radius : ℝ) :
    effectiveRadius radius = if |radius| < EPSILON then 1 else |radius| := by
  unfold effectiveRadius DEFAULT_CURVATURE_RADIUS
  split_ifs with h
  · norm_num
  · rfl

lemma effectiveRadius_of_lt (radius : ℝ) (h : |radius| < EPSILON) :
    effectiveRadius radius = 1 := by
  rw [effectiveRadius_eq, if_pos h]

lemma effectiveRadius_of_ge (radius : ℝ) (h : EPSILON ≤ |radius|) :
    effectiveRadius radius = |radius| := by
  rw [effectiveRadius_eq, if_neg (not_lt.mpr h)]

lemma clampDlead_eq_max_min (dlead : ℝ) :
    clampDlead dlead = max (-MAX_DLEAD) (min MAX_DLEAD dlead) := by
  unfold clampDlead MAX_DLEAD
  rw [max_def, min_def]
  split_ifs <;> linarith

lemma clampDlead_of_mem (dlead : ℝ) (h1 : -MAX_DLEAD ≤ dlead)
    (h2 : dlead ≤ MAX_DLEAD) : clampDlead dlead = dlead := by
  unfold clampDlead
  rw [if_neg (not_lt.mpr h2), if_neg (not_lt.mpr h1)]

lemma calculateColinearPoint_of_arc (x y theta dlead radius : ℝ)
    (h : ¬ |dlead| < MIN_DLEAD) :
    calculateColinearPoint x y theta dlead radius =
      ⟨snap (arcWorldX x theta dlead radius),
       snap (arcWorldY y theta dlead radius)⟩ := by
  unfold calculateColinearPoint
  rw [if_neg h]

lemma calculateColinearPoint_congr_radius (x y theta dlead r r' : ℝ)
    (h : effectiveRadius r = effectiveRadius r') :
    calculateColinearPoint x y theta dlead r =
      calculateColinearPoint x y theta dlead r' := by
  unfold calculateColinearPoint arcWorldX arcWorldY
  rw [h]

lemma calculateColinearPoint_congr_dlead (x y theta d d' radius : ℝ)
    (hd : ¬ |d| < MIN_DLEAD) (hd' : ¬ |d'| < MIN_DLEAD)
    (h : clampDlead d = clampDlead d') :
    calculateColinearPoint x y theta d radius =
      calculateColinearPoint x y theta d' radius := by
  unfold calculateColinearPoint arcWorldX arcWorldY
  rw [if_neg hd, if_neg hd', h]

/-- C4: For every finite x, y, theta, radius and every dlead with
|dlead| < 1e-6 (in particular dlead = 0), calculateColinearPoint returns
exactly (x, y) unchanged. -/
theorem C4_identity_below_min_dlead (x y theta dlead radius : ℝ)
    (h : |dlead| < 1e-6) :
    calculateColinearPoint x y theta dlead radius = ⟨x, y⟩ := by
  unfold calculateColinearPoint
  rw [if_pos]
  exact h

theorem C4_identity_below_min_dlead_witness :
    calculateColinearPoint 3 7 2 0 5 = ⟨3, 7⟩ :=
  C4_identity_below_min_dlead 3 7 2 0 5 (by norm_num)

/-- C3: For every finite x, y, theta, dlead and every curvature with
|curvature| < 1e-9 (in particular curvature = 0),
calculateColinearPointWithCurvature returns exactly
(x + dlead*cos(theta), y + dlead*sin(theta)), bypassing the arc solver
entirely. -/
theorem C3_straight_line_below_epsilon (x y theta dlead curvature : ℝ)
    (h : |curvature| < 1e-9) :
    calculateColinearPointWithCurvature x y theta dlead curvature =
      ⟨x + dlead * Real.cos theta, y + dlead * Real.sin theta⟩ := by
  unfold calculateColinearPointWithCurvature
  rw [if_pos]
  exact h

theorem C3_straight_line_below_epsilon_witness :
    calculateColinearPointWithCurvature 1 2 0 5 0 =
      ⟨1 + 5 * Real.cos 0, 2 + 5 * Real.sin 0⟩ :=
  C3_straight_line_below_epsilon 1 2 0 5 0 (by norm_num)

/-- C1: For every finite input with |dlead| >= 1e-6,
calculateColinearPoint returns the point obtained by clamping dlead to
[-1e6, 1e6], taking effective radius R = |radius| (R = 1.0 when
|radius| < 1e-9), computing phi = dlead / R, localX = R * sin(phi),
localY = R * (1 - cos(phi)), rotating by theta and translating by
(x, y), with each resulting coordinate of magnitude below 1e-9 replaced
by exactly 0.0. -/
theorem C1_arc_formula (x y theta dlead radius : ℝ) (h : 1e-6 ≤ |dlead|) :
    calculateColinearPoint x y theta dlead radius =
      specArcPoint x y theta dlead radius := by
  rw [calculateColinearPoint_of_arc x y theta dlead radius (not_lt.mpr h)]
  unfold specArcPoint arcWorldX arcWorldY snap
  rw [effectiveRadius_eq, clampDlead_eq_max_min]
  unfold EPSILON MAX_DLEAD
  norm_num

theorem C1_arc_formula_witness :
    calculateColinearPoint 2 3 1 5 4 = specArcPoint 2 3 1 5 4 :=
  C1_arc_formula 2 3 1 5 4 (by norm_num)

/-- C6: calculateColinearPoint with radius 0 returns the same point as
with radius 1.0; more generally any radius with |radius| < 1e-9 is
replaced by the default radius 1.0, and otherwise the absolute value
|radius| is used in the computation. -/
theorem C6_default_radius (x y theta dlead radius : ℝ) :
    calculateColinearPoint x y theta dlead 0 =
      calculateColinearPoint x y theta dlead 1.0 ∧
    (|radius| < 1e-9 →
      calculateColinearPoint x y theta dlead radius =
        calculateColinearPoint x y theta dlead 1.0) ∧
    (1e-9 ≤ |radius| →
      calculateColinearPoint x y theta dlead radius =
        calculateColinearPoint x y theta dlead |radius|) := by
  have h1 : effectiveRadius (1.0 : ℝ) = 1 := by
    rw [effectiveRadius_of_ge]
    · norm_num
    · unfold EPSILON; norm_num
  refine ⟨?_, ?_, ?_⟩
  · apply calculateColinearPoint_congr_radius
    rw [h1, effectiveRadius_of_lt]
    unfold EPSILON; norm_num
  · intro h
    apply calculateColinearPoint_congr_radius
    rw [h1, effectiveRadius_of_lt]
    exact h
  · intro h
    apply calculateColinearPoint_congr_radius
    rw [effectiveRadius_of_ge radius h, effectiveRadius_of_ge |radius|]
    · rw [abs_abs]
    · rw [abs_abs]; exact h

theorem C6_default_radius_witness :
    (calculateColinearPoint 1 2 3 4 0 = calculateColinearPoint 1 2 3 4 1.0) ∧
    (calculateColinearPoint 1 2 3 4 (-2) =
      calculateColinearPoint 1 2 3 4 |(-2 : ℝ)|) :=
  ⟨(C6_default_radius 1 2 3 4 (-2)).1,
   (C6_default_radius 1 2 3 4 (-2)).2.2 (by norm_num)⟩

/-- C7: For |dlead| >= 1e-6 the arc angle is computed from dlead clamped
to [-1e6, 1e6]: for dlead > 1e6 the result equals the result at
dlead = 1e6, and for dlead < -1e6 it equals the result at dlead = -1e6. -/
theorem C7_dlead_clamping (x y theta dlead radius : ℝ) :
    (dlead > 1e6 →
      calculateColinearPoint x y theta dlead radius =
        calculateColinearPoint x y theta 1e6 radius) ∧
    (dlead < -1e6 →
      calculateColinearPoint x y theta dlead radius =
        calculateColinearPoint x y theta (-1e6) radius) := by
  constructor
  · intro h
    apply calculateColinearPoint_congr_dlead
    · unfold MIN_DLEAD
      rw [not_lt, abs_of_pos (by linarith : (0:ℝ) < dlead)]
      linarith
    · unfold MIN_DLEAD
      rw [not_lt]
      norm_num
    · rw [clampDlead_eq_max_min, clampDlead_eq_max_min]
      unfold MAX_DLEAD
      rw [min_eq_left h.le, min_eq_left le_rfl]
  · intro h
    apply calculateColinearPoint_congr_dlead
    · unfold MIN_DLEAD
      rw [not_lt, abs_of_neg (by linarith : dlead < 0)]
      linarith
    · unfold MIN_DLEAD
      rw [not_lt]
      norm_num
    · rw [clampDlead_eq_max_min, clampDlead_eq_max_min]
      unfold MAX_DLEAD
      rw [min_eq_right (by linarith), min_eq_right (by norm_num),
          max_eq_left le_rfl, max_eq_left (by linarith)]

theorem C7_dlead_clamping_witness :
    calculateColinearPoint 0 0 0 2e6 1 = calculateColinearPoint 0 0 0 1e6 1 ∧
    calculateColinearPoint 0 0 0 (-2e6) 1 =
      calculateColinearPoint 0 0 0 (-1e6) 1 :=
  ⟨(C7_dlead_clamping 0 0 0 2e6 1).1 (by norm_num),
   (C7_dlead_clamping 0 0 0 (-2e6) 1).2 (by norm_num)⟩

/-- C2 counterexample: at curvature c = 1e-10 (nonzero but below
EPSILON) the wrapper takes the straight-line branch and returns (1, 0),
while calculateColinearPoint(0, 0, 0, 1 * sign(c), 1/|c|) runs the arc
computation and returns x coordinate 1e10 * sin(1e-10) < 1, so the
claimed equivalence for every c != 0 fails. -/
theorem C2_counterexample :
    calculateColinearPointWithCurvature 0 0 0 1 1e-10 ≠
      calculateColinearPoint 0 0 0 (1 * Real.sign 1e-10) (1 / |(1e-10 : ℝ)|) := by
  have hL : calculateColinearPointWithCurvature 0 0 0 1 1e-10 = ⟨1, 0⟩ := by
    unfold calculateColinearPointWithCurvature
    rw [if_pos (by unfold EPSILON; rw [abs_of_pos] <;> norm_num)]
    simp
  have hsin_lt : Real.sin 1e-10 < 1e-10 := Real.sin_lt (by norm_num)
  have hsin_gt : (1e-10 : ℝ) - (1e-10 : ℝ) ^ 3 / 4 < Real.sin 1e-10 :=
    Real.sin_gt_sub_cube (by norm_num) (by norm_num)
  have harg : (1 : ℝ) * Real.sign 1e-10 = 1 := by
    rw [Real.sign_of_pos (by norm_num : (0:ℝ) < 1e-10)]
    ring
  have hrad : (1 : ℝ) / |(1e-10 : ℝ)| = 1e10 := by
    rw [abs_of_pos (by norm_num : (0:ℝ) < 1e-10)]
    norm_num
  have hRx : (calculateColinearPoint 0 0 0 (1 * Real.sign 1e-10)
      (1 / |(1e-10 : ℝ)|)).x = 1e10 * Real.sin 1e-10 := by
    rw [harg, hrad,
      calculateColinearPoint_of_arc 0 0 0 1 1e10
        (by rw [abs_of_pos] <;> [unfold MIN_DLEAD; skip] <;> norm_num)]
    have habs10 : |(1e10 : ℝ)| = 1e10 := abs_of_pos (by norm_num)
    have heff : effectiveRadius (1e10 : ℝ) = 1e10 := by
      rw [effectiveRadius_of_ge 1e10
        (by rw [habs10]; unfold EPSILON; norm_num), habs10]
    have hclamp : clampDlead (1 : ℝ) = 1 :=
      clampDlead_of_mem 1 (by unfold MAX_DLEAD; norm_num)
        (by unfold MAX_DLEAD; norm_num)
    show snap (arcWorldX 0 0 1 1e10) = _
    unfold arcWorldX
    rw [heff, hclamp]
    simp only [Real.cos_zero, Real.sin_zero]
    have hphi : (1 : ℝ) / 1e10 = 1e-10 := by norm_num
    rw [hphi]
    have hval : (0 : ℝ) + 1e10 * Real.sin 1e-10 * 1 -
        1e10 * (1 - Real.cos 1e-10) * 0 = 1e10 * Real.sin 1e-10 := by ring
    rw [hval]
    unfold snap
    rw [if_neg]
    rw [not_lt, abs_of_pos (by nlinarith : (0:ℝ) < 1e10 * Real.sin 1e-10)]
    unfold EPSILON
    nlinarith
  intro h
  have hx := congrArg Point.x h
  rw [hL, hRx] at hx
  simp only at hx
  nlinarith

/-- C2 amended: for every finite x, y, theta, dlead and every curvature
c with |c| >= 1e-9 (rather than every c != 0),
calculateColinearPointWithCurvature(x, y, theta, dlead, c) returns the
same point as calculateColinearPoint(x, y, theta, dlead * sign(c),
1/|c|); for 0 < |c| < 1e-9 the straight-line branch is taken instead. -/
theorem C2_amended_curvature_radius_equivalence (x y theta dlead c : ℝ)
    (h : 1e-9 ≤ |c|) :
    calculateColinearPointWithCurvature x y theta dlead c =
      calculateColinearPoint x y theta (dlead * Real.sign c) (1 / |c|) := by
  unfold calculateColinearPointWithCurvature
  rw [if_neg (by unfold EPSILON; exact not_lt.mpr h)]
  have hc : c ≠ 0 := by
    intro h0
    rw [h0, abs_zero] at h
    linarith
  rcases lt_or_gt_of_ne hc with hneg | hpos
  · rw [if_pos hneg, Real.sign_of_neg hneg]
    norm_num
  · rw [if_neg (not_lt.mpr hpos.le), Real.sign_of_pos hpos]
    norm_num

theorem C2_amended_curvature_radius_equivalence_witness :
    calculateColinearPointWithCurvature 0 0 0 1 (-1) =
      calculateColinearPoint 0 0 0 (1 * Real.sign (-1)) (1 / |(-1 : ℝ)|) :=
  C2_amended_curvature_radius_equivalence 0 0 0 1 (-1) (by norm_num)

/-- C5 counterexample: the early identity return of
calculateColinearPoint (taken when |dlead| < 1e-6) does not snap: at
(x, y) = (1e-10, 0) with dlead = 0 the returned x coordinate is 1e-10,
which is neither exactly 0 nor of magnitude at least 1e-9. -/
theorem C5_counterexample :
    (calculateColinearPoint 1e-10 0 0 0 1).x ≠ 0 ∧
      |(calculateColinearPoint 1e-10 0 0 0 1).x| < 1e-9 := by
  have h : calculateColinearPoint 1e-10 0 0 0 1 = ⟨1e-10, 0⟩ := by
    unfold calculateColinearPoint
    rw [if_pos (by rw [abs_zero]; unfold MIN_DLEAD; norm_num)]
  rw [h]
  constructor
  · show (1e-10 : ℝ) ≠ 0
    norm_num
  · show |(1e-10 : ℝ)| < 1e-9
    rw [abs_of_pos] <;> norm_num

lemma snap_zero_or_ge (v : ℝ) : snap v = 0 ∨ EPSILON ≤ |snap v| := by
  unfold snap
  split_ifs with h
  · left
    norm_num
  · right
    exact not_lt.mp h

/-- C5 amended: the zero-snapping of output coordinates is guaranteed
only on the arc-computation return path of calculateColinearPoint: when
|dlead| >= 1e-6 each returned coordinate is exactly 0.0 or has magnitude
at least 1e-9.  The early identity return (|dlead| < 1e-6) and the
straight-line branch of calculateColinearPointWithCurvature
(|curvature| < 1e-9) return their coordinates unmodified and may produce
magnitudes strictly between 0 and 1e-9. -/
theorem C5_amended_snap_on_arc_path (x y theta dlead radius : ℝ)
    (h : 1e-6 ≤ |dlead|) :
    ((calculateColinearPoint x y theta dlead radius).x = 0 ∨
      1e-9 ≤ |(calculateColinearPoint x y theta dlead radius).x|) ∧
    ((calculateColinearPoint x y theta dlead radius).y = 0 ∨
      1e-9 ≤ |(calculateColinearPoint x y theta dlead radius).y|) := by
  rw [calculateColinearPoint_of_arc x y theta dlead radius (not_lt.mpr h)]
  exact ⟨snap_zero_or_ge (arcWorldX x theta dlead radius),
    snap_zero_or_ge (arcWorldY y theta dlead radius)⟩

theorem C5_amended_snap_on_arc_path_witness :
    ((calculateColinearPoint 2 3 1 1 1).x = 0 ∨
      1e-9 ≤ |(calculateColinearPoint 2 3 1 1 1).x|) ∧
    ((calculateColinearPoint 2 3 1 1 1).y = 0 ∨
      1e-9 ≤ |(calculateColinearPoint 2 3 1 1 1).y|) :=
  C5_amended_snap_on_arc_path 2 3 1 1 1 (by norm_num)

/-- C9: both solver entry points are total and deterministic over the
real-valued embedding: every call returns a Point and two calls with
equal inputs return equal outputs. -/
theorem C9_total_deterministic
    (x y theta dlead radius curvature x' y' theta' dlead' radius' curvature' : ℝ)
    (hx : x = x') (hy : y = y') (ht : theta = theta') (hd : dlead = dlead')
    (hr : radius = radius') (hc : curvature = curvature') :
    (∃ p : Point, calculateColinearPoint x y theta dlead radius = p) ∧
    (∃ q : Point,
      calculateColinearPointWithCurvature x y theta dlead curvature = q) ∧
    calculateColinearPoint x y theta dlead radius =
      calculateColinearPoint x' y' theta' dlead' radius' ∧
    calculateColinearPointWithCurvature x y theta dlead curvature =
      calculateColinearPointWithCurvature x' y' theta' dlead' curvature' := by
  subst hx hy ht hd hr hc
  exact ⟨⟨_, rfl⟩, ⟨_, rfl⟩, rfl, rfl⟩

theorem C9_total_deterministic_witness :
    (∃ p : Point, calculateColinearPoint 1 2 3 4 5 = p) ∧
    (∃ q : Point, calculateColinearPointWithCurvature 1 2 3 4 6 = q) ∧
    calculateColinearPoint 1 2 3 4 5 = calculateColinearPoint 1 2 3 4 5 ∧
    calculateColinearPointWithCurvature 1 2 3 4 6 =
      calculateColinearPointWithCurvature 1 2 3 4 6 :=
  C9_total_deterministic 1 2 3 4 5 6 1 2 3 4 5 6 rfl rfl rfl rfl rfl rfl

/-- C10: when |curvature| < 1e-9 the straight-line branch of
calculateColinearPointWithCurvature applies none of the arc solver's
guards to dlead (the supplied dlead is used as-is, with no clamping and
no near-zero identity shortcut); in particular for 0 < |dlead| < 1e-6
with dlead*cos(theta) or dlead*sin(theta) nonzero it returns a point
different from (x, y), whereas calculateColinearPoint returns exactly
(x, y) for the same dlead and every radius. -/
theorem C10_no_guards_on_straight_branch
    (x y theta dlead curvature radius : ℝ) (hc : |curvature| < 1e-9) :
    calculateColinearPointWithCurvature x y theta dlead curvature =
      ⟨x + dlead * Real.cos theta, y + dlead * Real.sin theta⟩ ∧
    (|dlead| < 1e-6 →
      (dlead * Real.cos theta ≠ 0 ∨ dlead * Real.sin theta ≠ 0) →
      calculateColinearPointWithCurvature x y theta dlead curvature ≠ ⟨x, y⟩ ∧
      calculateColinearPoint x y theta dlead radius = ⟨x, y⟩) := by
  have hbr : calculateColinearPointWithCurvature x y theta dlead curvature =
      ⟨x + dlead * Real.cos theta, y + dlead * Real.sin theta⟩ := by
    unfold calculateColinearPointWithCurvature
    rw [if_pos (show |curvature| < EPSILON from hc)]
  refine ⟨hbr, fun hd hnz => ⟨?_, ?_⟩⟩
  · rw [hbr]
    intro heq
    rcases hnz with h1 | h1
    · refine h1 ?_
      have hx : x + dlead * Real.cos theta = x := congrArg Point.x heq
      linarith
    · refine h1 ?_
      have hy : y + dlead * Real.sin theta = y := congrArg Point.y heq
      linarith
  · unfold calculateColinearPoint
    rw [if_pos (show |dlead| < MIN_DLEAD from hd)]

theorem C10_no_guards_on_straight_branch_witness :
    calculateColinearPointWithCurvature 0 0 0 1e-7 0 ≠ ⟨0, 0⟩ ∧
    calculateColinearPoint 0 0 0 1e-7 1 = ⟨0, 0⟩ :=
  (C10_no_guards_on_straight_branch 0 0 0 1e-7 0 1 (by norm_num)).2
    (by rw [abs_of_pos] <;> norm_num)
    (Or.inl (by rw [Real.cos_zero]; norm_num))

lemma effectiveRadius_one : effectiveRadius (1 : ℝ) = 1 := by
  rw [effectiveRadius_of_ge]
  · rw [abs_one]
  · rw [abs_one]
    unfold EPSILON
    norm_num

lemma arcWorldX_radius_one (x theta d : ℝ) (h1 : -MAX_DLEAD ≤ d)
    (h2 : d ≤ MAX_DLEAD) :
    arcWorldX x theta d 1 =
      x + Real.sin d * Real.cos theta - (1 - Real.cos d) * Real.sin theta := by
  unfold arcWorldX
  rw [effectiveRadius_one, clampDlead_of_mem d h1 h2, div_one]
  ring

lemma arcWorldY_radius_one (y theta d : ℝ) (h1 : -MAX_DLEAD ≤ d)
    (h2 : d ≤ MAX_DLEAD) :
    arcWorldY y theta d 1 =
      y + Real.sin d * Real.sin theta + (1 - Real.cos d) * Real.cos theta := by
  unfold arcWorldY
  rw [effectiveRadius_one, clampDlead_of_mem d h1 h2, div_one]
  ring

lemma chordLength_mk (x y a b : ℝ) :
    chordLength x y ⟨a, b⟩ =
      Real.sqrt ((a - x) * (a - x) + (b - y) * (b - y)) := rfl

set_option maxHeartbeats 1600000 in
/-- C8 counterexample: at x = y = 0, dlead = 1e-5, radius = 1, the chord
length differs between theta = 0 and theta = pi/4: at theta = 0 the tiny
y coordinate 1 - cos(1e-5) (about 5e-11) is snapped to 0, shortening the
chord to sin(1e-5), while at theta = pi/4 no coordinate is snapped and
the chord is sqrt(sin(1e-5)^2 + (1 - cos(1e-5))^2), strictly larger. -/
theorem C8_counterexample :
    chordLength 0 0 (calculateColinearPoint 0 0 0 1e-5 1) ≠
      chordLength 0 0 (calculateColinearPoint 0 0 (Real.pi / 4) 1e-5 1) := by
  have hd1 : -MAX_DLEAD ≤ (1e-5 : ℝ) := by unfold MAX_DLEAD; norm_num
  have hd2 : (1e-5 : ℝ) ≤ MAX_DLEAD := by unfold MAX_DLEAD; norm_num
  have hnd : ¬ |(1e-5 : ℝ)| < MIN_DLEAD := by
    rw [abs_of_pos (by norm_num : (0:ℝ) < 1e-5)]
    unfold MIN_DLEAD
    norm_num
  have hsgt : (1e-5 : ℝ) - (1e-5 : ℝ) ^ 3 / 4 < Real.sin 1e-5 :=
    Real.sin_gt_sub_cube (by norm_num) (by norm_num)
  have hA : (9e-6 : ℝ) < Real.sin 1e-5 := by nlinarith
  have hcg : (1 : ℝ) - (1e-5 : ℝ) ^ 2 / 2 ≤ Real.cos 1e-5 :=
    Real.one_sub_sq_div_two_le_cos
  have hBle : (1 : ℝ) - Real.cos 1e-5 ≤ 5e-11 := by nlinarith
  have hpi3 : (3 : ℝ) < Real.pi := Real.pi_gt_three
  have habs5 : |(1e-5 : ℝ)| ≤ Real.pi := by
    rw [abs_of_pos (by norm_num : (0:ℝ) < 1e-5)]
    linarith
  have hcub : Real.cos 1e-5 ≤ 1 - 2 / Real.pi ^ 2 * (1e-5 : ℝ) ^ 2 :=
    Real.cos_le_one_sub_mul_cos_sq habs5
  have hpi_pos : (0 : ℝ) < Real.pi := Real.pi_pos
  have hquad : (0 : ℝ) < 2 / Real.pi ^ 2 * (1e-5 : ℝ) ^ 2 := by positivity
  have hBpos : (0 : ℝ) < 1 - Real.cos 1e-5 := by linarith
  have hsq2 : Real.sqrt 2 ^ 2 = 2 := Real.sq_sqrt (by norm_num)
  have hs2nn : (0 : ℝ) ≤ Real.sqrt 2 := Real.sqrt_nonneg 2
  have hs2gt : (1.4 : ℝ) < Real.sqrt 2 := by nlinarith
  have hP1 : calculateColinearPoint 0 0 0 1e-5 1 = ⟨Real.sin 1e-5, 0⟩ := by
    rw [calculateColinearPoint_of_arc 0 0 0 1e-5 1 hnd]
    congr 1
    · rw [arcWorldX_radius_one 0 0 1e-5 hd1 hd2, Real.cos_zero, Real.sin_zero]
      rw [show (0:ℝ) + Real.sin 1e-5 * 1 - (1 - Real.cos 1e-5) * 0 =
        Real.sin 1e-5 by ring]
      unfold snap
      rw [if_neg]
      rw [not_lt, abs_of_pos (by linarith : (0:ℝ) < Real.sin 1e-5)]
      unfold EPSILON
      linarith
    · rw [arcWorldY_radius_one 0 0 1e-5 hd1 hd2, Real.cos_zero, Real.sin_zero]
      rw [show (0:ℝ) + Real.sin 1e-5 * 0 + (1 - Real.cos 1e-5) * 1 =
        1 - Real.cos 1e-5 by ring]
      unfold snap
      rw [if_pos]
      · norm_num
      · rw [abs_of_pos hBpos]
        unfold EPSILON
        linarith
  have hP2 : calculateColinearPoint 0 0 (Real.pi / 4) 1e-5 1 =
      ⟨(Real.sin 1e-5 - (1 - Real.cos 1e-5)) * (Real.sqrt 2 / 2),
       (Real.sin 1e-5 + (1 - Real.cos 1e-5)) * (Real.sqrt 2 / 2)⟩ := by
    rw [calculateColinearPoint_of_arc 0 0 (Real.pi / 4) 1e-5 1 hnd]
    congr 1
    · rw [arcWorldX_radius_one 0 (Real.pi / 4) 1e-5 hd1 hd2,
        Real.cos_pi_div_four, Real.sin_pi_div_four]
      rw [show (0:ℝ) + Real.sin 1e-5 * (Real.sqrt 2 / 2) -
          (1 - Real.cos 1e-5) * (Real.sqrt 2 / 2) =
          (Real.sin 1e-5 - (1 - Real.cos 1e-5)) * (Real.sqrt 2 / 2) by ring]
      unfold snap
      rw [if_neg]
      have hAB : (8e-6 : ℝ) < Real.sin 1e-5 - (1 - Real.cos 1e-5) := by linarith
      have hs : (0.7 : ℝ) < Real.sqrt 2 / 2 := by linarith
      rw [not_lt, abs_of_pos (by nlinarith)]
      unfold EPSILON
      nlinarith
    · rw [arcWorldY_radius_one 0 (Real.pi / 4) 1e-5 hd1 hd2,
        Real.cos_pi_div_four, Real.sin_pi_div_four]
      rw [show (0:ℝ) + Real.sin 1e-5 * (Real.sqrt 2 / 2) +
          (1 - Real.cos 1e-5) * (Real.sqrt 2 / 2) =
          (Real.sin 1e-5 + (1 - Real.cos 1e-5)) * (Real.sqrt 2 / 2) by ring]
      unfold snap
      rw [if_neg]
      have hAB : (9e-6 : ℝ) < Real.sin 1e-5 + (1 - Real.cos 1e-5) := by linarith
      have hs : (0.7 : ℝ) < Real.sqrt 2 / 2 := by linarith
      rw [not_lt, abs_of_pos (by nlinarith)]
      unfold EPSILON
      nlinarith
  rw [hP1, hP2, chordLength_mk, chordLength_mk]
  rw [show (Real.sin 1e-5 - 0) * (Real.sin 1e-5 - 0) +
      ((0:ℝ) - 0) * ((0:ℝ) - 0) = Real.sin 1e-5 * Real.sin 1e-5 by ring]
  rw [show ((Real.sin 1e-5 - (1 - Real.cos 1e-5)) * (Real.sqrt 2 / 2) - 0) *
        ((Real.sin 1e-5 - (1 - Real.cos 1e-5)) * (Real.sqrt 2 / 2) - 0) +
      ((Real.sin 1e-5 + (1 - Real.cos 1e-5)) * (Real.sqrt 2 / 2) - 0) *
        ((Real.sin 1e-5 + (1 - Real.cos 1e-5)) * (Real.sqrt 2 / 2) - 0) =
      Real.sin 1e-5 * Real.sin 1e-5 +
        (1 - Real.cos 1e-5) * (1 - Real.cos 1e-5) by
    linear_combination ((Real.sin 1e-5 * Real.sin 1e-5 +
      (1 - Real.cos 1e-5) * (1 - Real.cos 1e-5)) / 2) * hsq2]
  exact ne_of_lt (Real.sqrt_lt_sqrt (mul_self_nonneg _)
    (by nlinarith [mul_pos hBpos hBpos]))

/-- C8 amended: for fixed x, y, dlead, radius the chord length between
(x, y) and the returned point is the same for any two headings theta1,
theta2 provided the zero-snapping step leaves the computed world
coordinates unchanged for both headings (each coordinate is exactly 0 or
of magnitude at least 1e-9); the snapping step itself can change the
chord length by perturbing a coordinate lying strictly between 0 and
1e-9 in magnitude. -/
theorem C8_amended_chord_theta_invariance (x y dlead radius t1 t2 : ℝ)
    (h1x : snap (arcWorldX x t1 dlead radius) = arcWorldX x t1 dlead radius)
    (h1y : snap (arcWorldY y t1 dlead radius) = arcWorldY y t1 dlead radius)
    (h2x : snap (arcWorldX x t2 dlead radius) = arcWorldX x t2 dlead radius)
    (h2y : snap (arcWorldY y t2 dlead radius) = arcWorldY y t2 dlead radius) :
    chordLength x y (calculateColinearPoint x y t1 dlead radius) =
      chordLength x y (calculateColinearPoint x y t2 dlead radius) := by
  by_cases hd : |dlead| < MIN_DLEAD
  · unfold calculateColinearPoint
    rw [if_pos hd, if_pos hd]
  · rw [calculateColinearPoint_of_arc x y t1 dlead radius hd,
        calculateColinearPoint_of_arc x y t2 dlead radius hd,
        chordLength_mk, chordLength_mk, h1x, h1y, h2x, h2y]
    unfold arcWorldX arcWorldY
    set r := effectiveRadius radius
    set A := r * Real.sin (clampDlead dlead / r) with hA
    set B := r * (1 - Real.cos (clampDlead dlead / r)) with hB
    congr 1
    linear_combination (A * A + B * B) * Real.sin_sq_add_cos_sq t1 -
      (A * A + B * B) * Real.sin_sq_add_cos_sq t2

theorem C8_amended_chord_theta_invariance_witness :
    chordLength 0 0 (calculateColinearPoint 0 0 0 1 1) =
      chordLength 0 0 (calculateColinearPoint 0 0 Real.pi 1 1) := by
  have hd1 : -MAX_DLEAD ≤ (1 : ℝ) := by unfold MAX_DLEAD; norm_num
  have hd2 : (1 : ℝ) ≤ MAX_DLEAD := by unfold MAX_DLEAD; norm_num
  have hsin1 : (3/4 : ℝ) < Real.sin 1 := by
    have h := Real.sin_gt_sub_cube (by norm_num : (0:ℝ) < 1) (le_refl (1:ℝ))
    nlinarith [h]
  have hcos1 : Real.cos 1 ≤ 2/3 := Real.cos_one_le
  have hX1 : arcWorldX 0 0 1 1 = Real.sin 1 := by
    rw [arcWorldX_radius_one 0 0 1 hd1 hd2, Real.cos_zero, Real.sin_zero]
    ring
  have hY1 : arcWorldY 0 0 1 1 = 1 - Real.cos 1 := by
    rw [arcWorldY_radius_one 0 0 1 hd1 hd2, Real.cos_zero, Real.sin_zero]
    ring
  have hX2 : arcWorldX 0 Real.pi 1 1 = -Real.sin 1 := by
    rw [arcWorldX_radius_one 0 Real.pi 1 hd1 hd2, Real.cos_pi, Real.sin_pi]
    ring
  have hY2 : arcWorldY 0 Real.pi 1 1 = -(1 - Real.cos 1) := by
    rw [arcWorldY_radius_one 0 Real.pi 1 hd1 hd2, Real.cos_pi, Real.sin_pi]
    ring
  apply C8_amended_chord_theta_invariance
  · rw [hX1]
    unfold snap
    rw [if_neg]
    rw [not_lt, abs_of_pos (by linarith : (0:ℝ) < Real.sin 1)]
    unfold EPSILON
    linarith
  · rw [hY1]
    unfold snap
    rw [if_neg]
    rw [not_lt, abs_of_pos (by linarith : (0:ℝ) < 1 - Real.cos 1)]
    unfold EPSILON
    linarith
  · rw [hX2]
    unfold snap
    rw [if_neg]
    rw [not_lt, abs_of_neg (by linarith : -Real.sin 1 < 0)]
    unfold EPSILON
    linarith
  · rw [hY2]
    unfold snap
    rw [if_neg]
    rw [not_lt, abs_of_neg (by linarith : -(1 - Real.cos 1) < 0)]
    unfold EPSILON
    linarith

end CollinearPointCalc
